import Mathlib

/-!
Verification development for the PsydeKick tagging and payments workflows.

The Lean definitions below are a shallow embedding of the Python functions in
`workflows/tagging.py` and `workflows/payments.py`:

* Python values flowing through condition evaluation (strings, floats, NaN)
  are modelled by `PyVal`.  Python floats produced by `float(...)` on decimal
  literals are modelled exactly as scaled integers (`Dec`, value
  `mant / 10 ^ exp`); the model covers plain decimal literals with an optional
  sign and fractional part (no exponent/inf/nan spellings), which is the shape
  of the data these workflows compare.
* A Python expression that may raise is modelled as `Option Bool`
  (`none` = an exception was raised); `try ... except: return False` becomes
  `Option.getD false`.
* pandas DataFrames become lists of structures; timestamps become integer
  microsecond counts of local wall-clock time, and dates integer day numbers,
  so `datetime.combine(d, time.min)` is `d * usPerDay` and `time.max` is
  `usPerDay - 1` past it.
* `pandas.Series.str.contains` with its default `regex=True` performs a
  regular-expression search; it is modelled for patterns made of literal
  characters and the `.` wildcard (`reSearchChars`), enough to exercise the
  code paths the source actually hits.  `str.lower()` is modelled on ASCII.
-/

namespace PsydeKick

/-- Exact decimal number `mant / 10 ^ exp`, the model of a Python float
obtained by parsing a decimal literal. -/
structure Dec where
  mant : ℤ
  exp : ℕ
deriving DecidableEq

/-- Rational value of a `Dec`. -/
def Dec.toRat (d : Dec) : ℚ := (d.mant : ℚ) / 10 ^ d.exp

/-- `<` on decimals by cross-multiplication (kernel-computable). -/
def decLtB (a b : Dec) : Bool := decide (a.mant * 10 ^ b.exp < b.mant * 10 ^ a.exp)

/-- `≤` on decimals by cross-multiplication. -/
def decLeB (a b : Dec) : Bool := decide (a.mant * 10 ^ b.exp ≤ b.mant * 10 ^ a.exp)

/-- `==` on decimals by cross-multiplication. -/
def decEqB (a b : Dec) : Bool := decide (a.mant * 10 ^ b.exp = b.mant * 10 ^ a.exp)

theorem decLtB_iff (a b : Dec) : decLtB a b = true ↔ a.toRat < b.toRat := by
  have h10 : (0:ℚ) < 10 := by norm_num
  rw [decLtB, decide_eq_true_eq, Dec.toRat, Dec.toRat,
    div_lt_div_iff₀ (pow_pos h10 _) (pow_pos h10 _)]
  constructor <;> intro h <;> exact_mod_cast h

theorem decLeB_iff (a b : Dec) : decLeB a b = true ↔ a.toRat ≤ b.toRat := by
  have h10 : (0:ℚ) < 10 := by norm_num
  rw [decLeB, decide_eq_true_eq, Dec.toRat, Dec.toRat,
    div_le_div_iff₀ (pow_pos h10 _) (pow_pos h10 _)]
  constructor <;> intro h <;> exact_mod_cast h

/-- A Python value reaching `evaluate_condition_logic`: a string, a float
(exact decimal), or a float NaN (what pandas stores for missing data). -/
inductive PyVal where
  | str (s : String)
  | num (d : Dec)
  | na
deriving DecidableEq

/-- Numeric value of a digit list (most significant first). -/
def digitsVal (cs : List Char) : ℕ := cs.foldl (fun n c => 10 * n + (c.toNat - 48)) 0

/-- Model of Python `float(s)` on a character list: optional sign, then
digits with at most one decimal point and at least one digit overall.
Returns `none` when `float` would raise `ValueError`. -/
def parseFloatChars (cs : List Char) : Option Dec :=
  let signed : Bool × List Char :=
    match cs with
    | '-' :: r => (true, r)
    | '+' :: r => (false, r)
    | _ => (false, cs)
  let neg := signed.1
  let body := signed.2
  let intPart := body.takeWhile (·.isDigit)
  let rest := body.dropWhile (·.isDigit)
  match rest with
  | [] =>
    if intPart.isEmpty then none
    else some ⟨(if neg then -1 else 1) * (digitsVal intPart : ℤ), 0⟩
  | '.' :: frac =>
    if frac.all (·.isDigit) && !(intPart.isEmpty && frac.isEmpty) then
      some ⟨(if neg then -1 else 1) *
        ((digitsVal intPart : ℤ) * 10 ^ frac.length + (digitsVal frac : ℤ)), frac.length⟩
    else none
  | _ => none

/-- `float(s)` on a string. -/
def parseFloat (s : String) : Option Dec := parseFloatChars s.toList

/-- `str2float` from tagging.py: `try: return float(x) except: return x`.
`float` of a float (NaN included) is the identity; a string parses or is
returned unchanged. -/
def str2float (x : PyVal) : PyVal :=
  match x with
  | .str s =>
    match parseFloat s with
    | some d => .num d
    | none => .str s
  | v => v

/-- `isinstance(x, float)` for the result of `str2float` (NaN is a float). -/
def isFloatVal (x : PyVal) : Bool :=
  match x with
  | .num _ => true
  | .na => true
  | .str _ => false

/-- Python `<` on strings: lexicographic by code point. -/
def strLtB : List Char → List Char → Bool
  | [], [] => false
  | [], _ :: _ => true
  | _ :: _, [] => false
  | a :: as, b :: bs => if a = b then strLtB as bs else decide (a.toNat < b.toNat)

/-- Python `<=` on strings. -/
def strLeB : List Char → List Char → Bool
  | [], _ => true
  | _ :: _, [] => false
  | a :: as, b :: bs => if a = b then strLeB as bs else decide (a.toNat < b.toNat)

/-- `needle` is a prefix of `hay`. -/
def isPrefixB : List Char → List Char → Bool
  | [], _ => true
  | _ :: _, [] => false
  | a :: as, b :: bs => a = b && isPrefixB as bs

/-- Python `needle in hay` for strings: contiguous substring test. -/
def isInfixB (needle : List Char) : List Char → Bool
  | [] => isPrefixB needle []
  | c :: rest => isPrefixB needle (c :: rest) || isInfixB needle rest

/-- Python `a == b` for the values in scope: numbers compare by value,
strings by content, mixed types and NaN compare unequal (never raises). -/
def pyEq (a b : PyVal) : Bool :=
  match a, b with
  | .num x, .num y => decEqB x y
  | .str x, .str y => decide (x.toList = y.toList)
  | _, _ => false

/-- Python `a < b`: numbers and strings compare within their type, any
comparison with NaN is `False`, and a string/number comparison raises
`TypeError` (`none`). -/
def pyLt (a b : PyVal) : Option Bool :=
  match a, b with
  | .num x, .num y => some (decLtB x y)
  | .str x, .str y => some (strLtB x.toList y.toList)
  | .num _, .na => some false
  | .na, .num _ => some false
  | .na, .na => some false
  | _, _ => none

/-- Python `a <= b`, same raising behaviour as `pyLt`. -/
def pyLe (a b : PyVal) : Option Bool :=
  match a, b with
  | .num x, .num y => some (decLeB x y)
  | .str x, .str y => some (strLeB x.toList y.toList)
  | .num _, .na => some false
  | .na, .num _ => some false
  | .na, .na => some false
  | _, _ => none

/-- Python `a > b`. -/
def pyGt (a b : PyVal) : Option Bool :=
  match a, b with
  | .num x, .num y => some (decLtB y x)
  | .str x, .str y => some (strLtB y.toList x.toList)
  | .num _, .na => some false
  | .na, .num _ => some false
  | .na, .na => some false
  | _, _ => none

/-- Python `a >= b`. -/
def pyGe (a b : PyVal) : Option Bool :=
  match a, b with
  | .num x, .num y => some (decLeB y x)
  | .str x, .str y => some (strLeB y.toList x.toList)
  | .num _, .na => some false
  | .na, .num _ => some false
  | .na, .na => some false
  | _, _ => none

/-- `(b in a) if isinstance(a, str) else False`; `b in a` with a non-string
`b` raises `TypeError`. -/
def pyContains (a b : PyVal) : Option Bool :=
  match a, b with
  | .str x, .str y => some (isInfixB y.toList x.toList)
  | .str _, _ => none
  | _, _ => some false

/-- `(b not in a) if isinstance(a, str) else False`. -/
def pyNotContains (a b : PyVal) : Option Bool :=
  match a, b with
  | .str x, .str y => some (!isInfixB y.toList x.toList)
  | .str _, _ => none
  | _, _ => some false

/-- `pd.isna(a) or a == ''`. -/
def pyIsEmptyVal (a : PyVal) : Bool :=
  match a with
  | .na => true
  | .str s => decide (s.toList = [])
  | .num _ => false

/-- Python `s.split(",")`: splits on every comma, keeping empty pieces. -/
def splitOnComma : List Char → List (List Char)
  | [] => [[]]
  | c :: rest =>
    if c = ',' then [] :: splitOnComma rest
    else
      match splitOnComma rest with
      | [] => [[c]]
      | h :: t => (c :: h) :: t

/-- `handle_between` from tagging.py.  The target must be a bracket-delimited
range string such as `[1,5)`; indexing an empty string, unpacking a split
that does not have exactly two pieces, a failed `float`, or comparing a
string value against the parsed bounds all raise (`none`). -/
def handle_between (value : PyVal) (target : PyVal) : Option Bool := do
  match target with
  | .str t =>
    match t.toList with
    | [] => none
    | c0 :: rest =>
      let lower_inc := c0 = '['
      let upper_inc := (c0 :: rest).getLastD ' ' = ']'
      let inner := ((c0 :: rest).drop 1).dropLast
      match splitOnComma inner with
      | [loCs, hiCs] =>
        match parseFloatChars loCs, parseFloatChars hiCs with
        | some lo, some hi => do
          let ok_lo ← if lower_inc then pyGe value (.num lo) else pyGt value (.num lo)
          let ok_hi ← if upper_inc then pyLe value (.num hi) else pyLt value (.num hi)
          some (ok_lo && ok_hi)
        | _, _ => none
      | _ => none
  | _ => none

/-- The keys of the `ops` dictionary in `evaluate_condition_logic`. -/
def knownOps : List String :=
  ["==", "!=", "<", "<=", ">", ">=", "contains", "not_contains",
   "empty", "not_empty", "between"]

/-- The body of the operator lambda chosen from the `ops` dictionary;
`none` models a raised exception. -/
def evalOpExc (op : String) (a b : PyVal) : Option Bool :=
  if op = "==" then some (pyEq a b)
  else if op = "!=" then some (!pyEq a b)
  else if op = "<" then pyLt a b
  else if op = "<=" then pyLe a b
  else if op = ">" then pyGt a b
  else if op = ">=" then pyGe a b
  else if op = "contains" then pyContains a b
  else if op = "not_contains" then pyNotContains a b
  else if op = "empty" then some (pyIsEmptyVal a)
  else if op = "not_empty" then some (!pyIsEmptyVal a)
  else if op = "between" then handle_between a b
  else none

/-- `evaluate_condition_logic` from tagging.py: unknown operators return
`False`, and any exception raised by the operator body is caught and turned
into `False`. -/
def evaluate_condition_logic (value : PyVal) (op : String) (target : PyVal) : Bool :=
  if op ∈ knownOps then (evalOpExc op value target).getD false
  else false

/-- One row of the responses table, restricted to the columns
`eval_single_condition` reads. -/
structure Response where
  question_name : String
  content : PyVal
  skipped : Bool
  not_seen : Bool
deriving DecidableEq

/-- One row of the conditions config table (read with `dtype=str`). -/
structure Condition where
  id : String
  group_id : String
  operator : String
  value : String
  skip_behavior : String
deriving DecidableEq

/-- One row of the condition_questions join table. -/
structure CondQuestion where
  condition_id : String
  question_name : String
deriving DecidableEq

/-- One row of the condition_groups config table. -/
structure CGroup where
  id : String
  workflow_id : String
  logical_operator : String
deriving DecidableEq

/-- One row of the workflows config table. -/
structure Workflow where
  id : String
  logical_operator : String
  tag_id : String
deriving DecidableEq

/-- The `for _, response in sub.iterrows()` loop of `eval_single_condition`.
The loop variable `target` is threaded as state: once a response content
parses as a float (and the operator is not `between`), `target` is replaced
by `str2float(target)` and stays converted for later iterations. -/
def evalLoop (op : String) (skipTrue : Bool) : PyVal → List Response → Bool
  | _, [] => false
  | target, r :: rest =>
    if r.skipped then
      if skipTrue then true else evalLoop op skipTrue target rest
    else if r.not_seen then evalLoop op skipTrue target rest
    else
      let val_conv := str2float r.content
      let target' := if op ≠ "between" ∧ isFloatVal val_conv = true then str2float target
        else target
      if evaluate_condition_logic val_conv op target' then true
      else evalLoop op skipTrue target' rest

/-- `eval_single_condition` from tagging.py. -/
def eval_single_condition (cond : Condition) (sess_responses : List Response)
    (cond_qs : List String) : Bool :=
  let skip_true := cond.skip_behavior = "1"
  let sub := sess_responses.filter (fun r => decide (r.question_name ∈ cond_qs))
  if cond.operator = "empty" ∧ sub = [] then true
  else evalLoop cond.operator skip_true (.str cond.value) sub

/-- `cond_questions[cond_questions.condition_id == cond.id].question_name.tolist()`. -/
def questionsFor (cond_id : String) (links : List CondQuestion) : List String :=
  (links.filter (fun l => decide (l.condition_id = cond_id))).map (·.question_name)

/-- `eval_condition_group` from tagging.py: conditions of the group combined
with `all` when the group operator is `AND`, otherwise with `any`. -/
def eval_condition_group (group : CGroup) (conditions : List Condition)
    (cond_questions : List CondQuestion) (sess_responses : List Response) : Bool :=
  let subset := conditions.filter (fun c => decide (c.group_id = group.id))
  let results := subset.map
    (fun c => eval_single_condition c sess_responses (questionsFor c.id cond_questions))
  if group.logical_operator = "AND" then results.all id else results.any id

/-- `eval_workflow` from tagging.py: `False` when no group belongs to the
workflow, otherwise the group results combined with `all`/`any`. -/
def eval_workflow (workflow_row : Workflow) (all_groups : List CGroup)
    (all_conditions : List Condition) (all_cond_questions : List CondQuestion)
    (session_responses : List Response) : Bool :=
  let wf_groups := all_groups.filter (fun g => decide (g.workflow_id = workflow_row.id))
  if wf_groups = [] then false
  else
    let group_results := wf_groups.map
      (fun g => eval_condition_group g all_conditions all_cond_questions session_responses)
    if workflow_row.logical_operator = "AND" then group_results.all id
    else group_results.any id

/-! ## payments.py -/

/-- One row of a participant's session table, restricted to the columns the
payment computations read.  `local_ts` is the session start as microseconds
of local wall-clock time (the `local_ts` column produced by
`filter_sessions_by_participant`). -/
structure Sess where
  local_ts : ℤ
  survey_name : String
deriving DecidableEq

/-- Microseconds per day: `datetime.combine(d, time.min)` for day number `d`
is `d * usPerDay`, and `time.max` is `usPerDay - 1` past it. -/
def usPerDay : ℤ := 86400000000

/-- ASCII model of Python `str.lower()`. -/
def lowerChar (c : Char) : Char :=
  if 'A' ≤ c ∧ c ≤ 'Z' then Char.ofNat (c.toNat + 32) else c

/-- Lowercase a character list. -/
def lowerChars (cs : List Char) : List Char := cs.map lowerChar

/-- Does the regex pattern match a prefix of `hay`?  Pattern fragment:
literal characters plus the `.` wildcard. -/
def reMatchAt : List Char → List Char → Bool
  | [], _ => true
  | _ :: _, [] => false
  | p :: ps, c :: cs => (p = '.' || p = c) && reMatchAt ps cs

/-- `re.search`: does the pattern match at any position of `hay`? -/
def reSearchChars (pat : List Char) : List Char → Bool
  | [] => reMatchAt pat []
  | c :: rest => reMatchAt pat (c :: rest) || reSearchChars pat rest

/-- `sessions.survey_name.str.contains(reason_filter, case=False, na=False)`
as used by `compute_daily_counts`: a case-insensitive regular-expression
search (the pandas default `regex=True` is not overridden there). -/
def surveyMatchesFilter (f : String) (name : String) : Bool :=
  reSearchChars (lowerChars f.toList) (lowerChars name.toList)

/-- `compute_daily_counts` from payments.py: a dense `date, count` table over
`num_days` consecutive days from `start_date`; sessions are windowed to
`[start 00:00:00, end 23:59:59.999999]` local time, optionally filtered by
`reason_filter` (skipped when the filter is falsy, i.e. `None` or `""`),
then grouped by normalized local day. -/
def compute_daily_counts (sessions : List Sess) (start_date : ℤ) (days : ℕ)
    (reason_filter : Option String) : List (ℤ × ℕ) :=
  let idx_end_date := start_date + (days : ℤ) - 1
  let idx := (List.range days).map (fun i => start_date + (i : ℤ))
  let win_start := start_date * usPerDay
  let win_end := (idx_end_date + 1) * usPerDay - 1
  let windowed := sessions.filter
    (fun s => decide (win_start ≤ s.local_ts ∧ s.local_ts ≤ win_end))
  let filtered :=
    match reason_filter with
    | some f => if f = "" then windowed
        else windowed.filter (fun s => surveyMatchesFilter f s.survey_name)
    | none => windowed
  idx.map (fun d => (d, (filtered.filter (fun s => decide (s.local_ts.fdiv usPerDay = d))).length))

/-- `compute_bonus_days` from payments.py. -/
def compute_bonus_days (daily_counts : List (ℤ × ℕ)) (threshold : ℤ) : ℕ :=
  if threshold ≤ 0 ∨ daily_counts = [] then 0
  else daily_counts.countP (fun p => decide (threshold ≤ (p.2 : ℤ)))

/-- One row of the rates config table after `load_rates`. -/
structure Rate where
  reason : String
  rate_amount : ℚ
deriving DecidableEq

/-- `compute_base_rate_counts` from payments.py: one output row per rate;
a non-empty reason is counted with `str.contains(reason.lower(), na=False,
regex=False)` against the lowercased survey names (a genuine substring
test there, since `regex=False` is passed), an empty reason is never
counted (`if reason:` guard). -/
def compute_base_rate_counts (sessions : List Sess) (rates : List Rate) :
    List (String × ℚ × ℕ) :=
  let namesLc := sessions.map (fun s => lowerChars s.survey_name.toList)
  rates.map (fun r =>
    (r.reason, r.rate_amount,
      if r.reason ≠ "" then
        namesLc.countP (fun n => isInfixB (lowerChars r.reason.toList) n)
      else 0))

/-- `compute_stats` from payments.py with `today_local` injected as a
parameter (the source reads `datetime.now(tz).date()`); dates are integer
day numbers, so `(today_local - start_date).days` is the plain difference. -/
def compute_stats (start_date today_local : ℤ) (num_days num_possible_per_day : ℤ)
    (daily : List (ℤ × ℕ)) : ℤ × ℤ :=
  let days_from_start_to_today := (today_local - start_date) + 1
  let e := min days_from_start_to_today num_days
  let num_days_elapsed_in_schema := if e < 0 then 0 else e
  let num_possible := num_days_elapsed_in_schema * num_possible_per_day
  let num_completed :=
    ((daily.take num_days_elapsed_in_schema.toNat).map (fun p => (p.2 : ℤ))).sum
  (num_possible, num_completed)

/-- Specification-side view of one iteration of the response loop: a skipped
response matches exactly when the skip-as-true flag is set, a not-seen (and
not skipped) response never matches, and any other response matches when the
operator relates its (possibly parsed) content to the target. -/
def respMatches (op : String) (skipTrue : Bool) (tgt : PyVal) (r : Response) : Bool :=
  if r.skipped then skipTrue
  else if r.not_seen then false
  else evaluate_condition_logic (str2float r.content) op tgt

/-- The target value actually used by the loop when the float-parse status
of the filtered responses is uniform: converted once some response content
parses as a float and the operator is not `between`, raw otherwise. -/
def effTarget (cond : Condition) (sub : List Response) : PyVal :=
  if cond.operator ≠ "between" ∧ sub.any (fun r => isFloatVal (str2float r.content)) = true then
    str2float (.str cond.value)
  else .str cond.value

/-! ## Helper lemmas -/

theorem perm_any {α : Type} {l l2 : List α} (h : l.Perm l2) (f : α → Bool) :
    l.any f = l2.any f := by
  rw [Bool.eq_iff_iff, List.any_eq_true, List.any_eq_true]
  constructor
  · rintro ⟨x, hx, hfx⟩
    exact ⟨x, h.mem_iff.mp hx, hfx⟩
  · rintro ⟨x, hx, hfx⟩
    exact ⟨x, h.mem_iff.mpr hx, hfx⟩

theorem filter_swap {α : Type} (p q : α → Bool) (l : List α) :
    (l.filter p).filter q = (l.filter q).filter p := by
  induction l with
  | nil => rfl
  | cons a l ih =>
    by_cases hp : p a = true <;> by_cases hq : q a = true <;>
      simp [List.filter_cons, hp, hq, ih]

theorem compute_base_rate_counts_length (sessions : List Sess) (rates : List Rate) :
    (compute_base_rate_counts sessions rates).length = rates.length := by
  simp [compute_base_rate_counts]

/-- Closed form of `compute_stats`: the `if _ < 0 then 0 else _` clamp is a
`max` with `0`. -/
theorem compute_stats_eq (s t nd npd : ℤ) (daily : List (ℤ × ℕ)) :
    compute_stats s t nd npd daily
      = (max 0 (min (t - s + 1) nd) * npd,
         ((daily.take (max 0 (min (t - s + 1) nd)).toNat).map (fun p => (p.2 : ℤ))).sum) := by
  simp only [compute_stats]
  have hite : (if min (t - s + 1) nd < 0 then (0:ℤ) else min (t - s + 1) nd)
      = max 0 (min (t - s + 1) nd) := by
    rcases le_or_lt 0 (min (t - s + 1) nd) with h | h
    · rw [if_neg (not_lt.mpr h), max_eq_right h]
    · rw [if_pos h, max_eq_left h.le]
  rw [hite]

/-! ## Claims -/

/-- **C4.** `handle_between` parses a bracket-delimited range string and
applies each bound's inclusivity independently from its bracket character
(`[`/`]` inclusive, `(`/`)` exclusive); in particular
`handle_between(1.0, "[1,5]") = true`, `handle_between(5.0, "[1,5)") = false`,
`handle_between(1.0, "(1,5)") = false`, `handle_between(2.5, "(1,5)") = true`. -/
theorem C4_handle_between_brackets :
    (∀ v : Dec,
      (handle_between (.num v) (.str "[1,5]") = some true ↔ 1 ≤ v.toRat ∧ v.toRat ≤ 5)
      ∧ (handle_between (.num v) (.str "[1,5)") = some true ↔ 1 ≤ v.toRat ∧ v.toRat < 5)
      ∧ (handle_between (.num v) (.str "(1,5]") = some true ↔ 1 < v.toRat ∧ v.toRat ≤ 5)
      ∧ (handle_between (.num v) (.str "(1,5)") = some true ↔ 1 < v.toRat ∧ v.toRat < 5))
    ∧ handle_between (.num ⟨1, 0⟩) (.str "[1,5]") = some true
    ∧ handle_between (.num ⟨5, 0⟩) (.str "[1,5)") = some false
    ∧ handle_between (.num ⟨1, 0⟩) (.str "(1,5)") = some false
    ∧ handle_between (.num ⟨25, 1⟩) (.str "(1,5)") = some true := by
  refine ⟨fun v => ?_, by decide, by decide, by decide, by decide⟩
  have h1 : handle_between (.num v) (.str "[1,5]")
      = some (decLeB ⟨1, 0⟩ v && decLeB v ⟨5, 0⟩) := rfl
  have h2 : handle_between (.num v) (.str "[1,5)")
      = some (decLeB ⟨1, 0⟩ v && decLtB v ⟨5, 0⟩) := rfl
  have h3 : handle_between (.num v) (.str "(1,5]")
      = some (decLtB ⟨1, 0⟩ v && decLeB v ⟨5, 0⟩) := rfl
  have h4 : handle_between (.num v) (.str "(1,5)")
      = some (decLtB ⟨1, 0⟩ v && decLtB v ⟨5, 0⟩) := rfl
  refine ⟨?_, ?_, ?_, ?_⟩ <;>
    simp only [h1, h2, h3, h4, Option.some.injEq, Bool.and_eq_true,
      decLeB_iff, decLtB_iff] <;>
    norm_num [Dec.toRat]

/-- **C9.** `compute_bonus_days` counts the daily rows whose count meets the
threshold, and returns 0 when the threshold is non-positive or the table is
empty; `[0,1,5,2]` with threshold 2 gives 2, with threshold 0 gives 0. -/
theorem C9_compute_bonus_days :
    (∀ (daily : List (ℤ × ℕ)) (threshold : ℤ), 0 < threshold →
      compute_bonus_days daily threshold
        = (daily.filter (fun p => decide (threshold ≤ (p.2 : ℤ)))).length)
    ∧ (∀ (daily : List (ℤ × ℕ)) (threshold : ℤ), threshold ≤ 0 →
      compute_bonus_days daily threshold = 0)
    ∧ (∀ threshold : ℤ, compute_bonus_days [] threshold = 0)
    ∧ compute_bonus_days [(0, 0), (1, 1), (2, 5), (3, 2)] 2 = 2
    ∧ compute_bonus_days [(0, 0), (1, 1), (2, 5), (3, 2)] 0 = 0 := by
  refine ⟨?_, ?_, ?_, by decide, by decide⟩
  · intro daily t ht
    by_cases hd : daily = []
    · subst hd
      simp [compute_bonus_days]
    · rw [compute_bonus_days, if_neg (by push_neg; exact ⟨ht, hd⟩),
        List.countP_eq_length_filter]
  · intro daily t ht
    rw [compute_bonus_days, if_pos (Or.inl ht)]
  · intro t
    rw [compute_bonus_days, if_pos (Or.inr rfl)]

/-- Witness for C9 at concrete inputs. -/
theorem C9_witness :
    compute_bonus_days [((0:ℤ), (3:ℕ))] 1
      = (([((0:ℤ), (3:ℕ))]).filter (fun p => decide ((1:ℤ) ≤ (p.2 : ℤ)))).length
    ∧ compute_bonus_days [((0:ℤ), (3:ℕ))] (-1) = 0
    ∧ compute_bonus_days [] 7 = 0 :=
  ⟨C9_compute_bonus_days.1 _ 1 (by decide),
   C9_compute_bonus_days.2.1 _ (-1) (by decide),
   C9_compute_bonus_days.2.2.1 7⟩

/-- **C3.** With `today` injected, `compute_stats` returns
`possible = days_elapsed * num_possible_per_day` and `completed` the sum of
the first `days_elapsed` daily counts, where
`days_elapsed = min(num_days, today - start + 1)` clamped below at 0; a
`today` before `start` gives `(0, 0)`, `today = start + 5` with
`num_days = 10`, one possible per day gives `possible = 6`, and a `today`
past the window gives `possible = num_days` (per possible-per-day). -/
theorem C3_compute_stats :
    ∀ (s t nd npd : ℤ) (daily : List (ℤ × ℕ)),
      ((compute_stats s t nd npd daily).1 = max 0 (min (t - s + 1) nd) * npd
        ∧ (compute_stats s t nd npd daily).2
          = ((daily.take (max 0 (min (t - s + 1) nd)).toNat).map (fun p => (p.2 : ℤ))).sum)
      ∧ (t < s → compute_stats s t nd npd daily = (0, 0))
      ∧ (compute_stats s (s + 5) 10 1 daily).1 = 6
      ∧ (nd ≤ t - s + 1 → 0 ≤ nd → (compute_stats s t nd npd daily).1 = nd * npd) := by
  intro s t nd npd daily
  refine ⟨⟨by rw [compute_stats_eq], by rw [compute_stats_eq]⟩, ?_, ?_, ?_⟩
  · intro hlt
    rw [compute_stats_eq]
    have hm : max 0 (min (t - s + 1) nd) = 0 :=
      max_eq_left (le_trans (min_le_left _ _) (by omega))
    rw [hm]
    simp
  · rw [compute_stats_eq]
    have h6 : s + 5 - s + 1 = 6 := by ring
    rw [h6]
    norm_num
  · intro h1 h2
    rw [compute_stats_eq, min_eq_right h1, max_eq_right h2]

/-- Witness for C3 at concrete inputs. -/
theorem C3_witness :
    compute_stats 10 9 10 1 [((10:ℤ), (1:ℕ))] = (0, 0)
    ∧ (compute_stats 0 20 10 1 [((0:ℤ), (1:ℕ))]).1 = 10 * 1 :=
  ⟨(C3_compute_stats 10 9 10 1 _).2.1 (by decide),
   (C3_compute_stats 0 20 10 1 _).2.2.2 (by decide) (by decide)⟩

/-- **C5.** Vacuous-truth semantics: an `empty` condition whose filtered
response set is empty is `true`; a group with no conditions is `true` under
`AND` and `false` under `OR`; a workflow with no groups is `false`. -/
theorem C5_vacuous :
    (∀ (cond : Condition) (rs : List Response) (qs : List String),
      cond.operator = "empty" →
      rs.filter (fun r => decide (r.question_name ∈ qs)) = [] →
      eval_single_condition cond rs qs = true)
    ∧ (∀ (g : CGroup) (conds : List Condition) (links : List CondQuestion)
        (rs : List Response),
      conds.filter (fun c => decide (c.group_id = g.id)) = [] →
      (g.logical_operator = "AND" → eval_condition_group g conds links rs = true)
      ∧ (g.logical_operator = "OR" → eval_condition_group g conds links rs = false))
    ∧ (∀ (wf : Workflow) (groups : List CGroup) (conds : List Condition)
        (links : List CondQuestion) (rs : List Response),
      groups.filter (fun g => decide (g.workflow_id = wf.id)) = [] →
      eval_workflow wf groups conds links rs = false) := by
  refine ⟨?_, ?_, ?_⟩
  · intro cond rs qs hop hsub
    rw [eval_single_condition, if_pos ⟨hop, hsub⟩]
  · intro g conds links rs hsub
    constructor
    · intro hand
      simp [eval_condition_group, hsub, hand]
    · intro hor
      simp [eval_condition_group, hsub, hor]
  · intro wf groups conds links rs hsub
    simp [eval_workflow, hsub]

/-- Witness for C5 at concrete inputs. -/
theorem C5_witness :
    eval_single_condition ⟨"c", "g", "empty", "", "0"⟩
        [⟨"other", .str "x", false, false⟩] ["q"] = true
    ∧ eval_condition_group ⟨"g1", "w", "AND"⟩ [] [] [] = true
    ∧ eval_condition_group ⟨"g1", "w", "OR"⟩ [] [] [] = false
    ∧ eval_workflow ⟨"w1", "AND", "t"⟩ [] [] [] [] = false :=
  ⟨C5_vacuous.1 _ _ _ rfl (by decide),
   (C5_vacuous.2.1 ⟨"g1", "w", "AND"⟩ [] [] [] (by decide)).1 rfl,
   (C5_vacuous.2.1 ⟨"g1", "w", "OR"⟩ [] [] [] (by decide)).2 rfl,
   C5_vacuous.2.2 _ [] [] [] [] (by decide)⟩

/-- **C7.** `evaluate_condition_logic` is total by construction; an operator
name outside the supported set returns `false`, and an exception raised by
the operator body (modelled by `none`) is caught and yields `false`. -/
theorem C7_swallows_exceptions :
    ∀ (value : PyVal) (op : String) (target : PyVal),
      (op ∉ knownOps → evaluate_condition_logic value op target = false)
      ∧ (evalOpExc op value target = none → evaluate_condition_logic value op target = false) := by
  intro v op t
  constructor
  · intro h
    rw [evaluate_condition_logic, if_neg h]
  · intro h
    rw [evaluate_condition_logic]
    split
    · rw [h]
      rfl
    · rfl

/-- Witness for C7: an unknown operator, and a `between` with a malformed
range string (whose evaluation raises), both yield `false`. -/
theorem C7_witness :
    evaluate_condition_logic (.num ⟨1, 0⟩) "pow" (.num ⟨2, 0⟩) = false
    ∧ evaluate_condition_logic (.num ⟨1, 0⟩) "between" (.str "nope") = false :=
  ⟨(C7_swallows_exceptions _ "pow" _).1 (by decide),
   (C7_swallows_exceptions _ "between" _).2 rfl⟩

/-- **C10.** A rate whose reason string is empty gets an auto-detected count
of 0 from `compute_base_rate_counts` (the `if reason:` guard), even though
the empty string is a substring of every survey name. -/
theorem C10_empty_reason_zero :
    ∀ (sessions : List Sess) (rates : List Rate) (i : ℕ) (hi : i < rates.length),
      (rates.get ⟨i, hi⟩).reason = "" →
      ((compute_base_rate_counts sessions rates).get
          ⟨i, by rw [compute_base_rate_counts_length]; exact hi⟩).2.2 = 0 := by
  intro sessions rates i hi h
  simp only [compute_base_rate_counts, List.get_eq_getElem, List.getElem_map]
  rw [List.get_eq_getElem] at h
  simp [h]

/-- Witness for C10 at concrete inputs. -/
theorem C10_witness :
    ((compute_base_rate_counts [⟨0, "abc"⟩] [⟨"", 5⟩]).get ⟨0, by decide⟩).2.2 = 0 :=
  C10_empty_reason_zero [⟨0, "abc"⟩] [⟨"", 5⟩] 0 (by decide) rfl

/-- **C8 counterexample.** The claim says every rate's count equals the
number of sessions whose survey name contains the rate's reason as a
case-insensitive substring.  For the empty reason that number is the number
of all sessions (the empty string is a substring of every name, second
conjunct), yet the code returns 0. -/
theorem C8_counterexample :
    compute_base_rate_counts [⟨0, "abc"⟩] [⟨"", 1⟩] = [("", 1, 0)]
    ∧ isInfixB (lowerChars "".toList) (lowerChars "abc".toList) = true :=
  ⟨by decide, by decide⟩

/-- **C8 amended.** For every rate with a non-empty reason, the output row
carries the reason, the amount, and the number of sessions whose lowercased
survey name contains the lowercased reason as a substring; a session is
counted under every rate whose reason it contains (no mutual exclusivity),
e.g. one session named "Daily EMA" is counted under both a "daily" and an
"ema" rate. -/
theorem C8_base_rate_counts :
    (∀ (sessions : List Sess) (rates : List Rate) (i : ℕ) (hi : i < rates.length),
      (rates.get ⟨i, hi⟩).reason ≠ "" →
      (compute_base_rate_counts sessions rates).get
          ⟨i, by rw [compute_base_rate_counts_length]; exact hi⟩
        = ((rates.get ⟨i, hi⟩).reason, (rates.get ⟨i, hi⟩).rate_amount,
           (sessions.filter (fun s =>
             isInfixB (lowerChars (rates.get ⟨i, hi⟩).reason.toList)
               (lowerChars s.survey_name.toList))).length))
    ∧ compute_base_rate_counts [⟨0, "Daily EMA"⟩] [⟨"daily", 1⟩, ⟨"ema", 2⟩]
      = [("daily", 1, 1), ("ema", 2, 1)] := by
  refine ⟨?_, by decide⟩
  intro sessions rates i hi h
  simp only [compute_base_rate_counts, List.get_eq_getElem, List.getElem_map]
  rw [List.get_eq_getElem] at h
  simp only [h, if_true, ne_eq, not_false_eq_true, if_pos]
  rw [List.countP_map, List.countP_eq_length_filter]
  rfl

/-- Witness for C8 at concrete inputs. -/
theorem C8_witness :
    (compute_base_rate_counts [⟨0, "Daily EMA"⟩] [⟨"ema", 2⟩]).get ⟨0, by decide⟩
      = ("ema", 2, 1) := by
  exact C8_base_rate_counts.1 [⟨0, "Daily EMA"⟩] [⟨"ema", 2⟩] 0 (by decide) (by decide)

/-- **C2 (code bug evidence).** `compute_daily_counts` windows and
zero-fills as described (the two five-session scenarios from the spec), but
its reason filter is a regular-expression search, not the substring test its
own docstring describes: the filter `"a.c"` matches the survey name `"abc"`
(count 1 on the first conjunct) although `"a.c"` is not a substring of
`"abc"` (second conjunct). -/
theorem C2_regex_not_substring :
    compute_daily_counts [⟨0, "abc"⟩] 0 1 (some "a.c") = [(0, 1)]
    ∧ isInfixB (lowerChars "a.c".toList) (lowerChars "abc".toList) = false
    ∧ compute_daily_counts
        [⟨43200000000, "s"⟩, ⟨129600000000, "s"⟩, ⟨216000000000, "s"⟩,
         ⟨302400000000, "s"⟩, ⟨388800000000, "s"⟩] 0 5 none
      = [(0, 1), (1, 1), (2, 1), (3, 1), (4, 1)]
    ∧ compute_daily_counts
        [⟨43200000000, "s"⟩, ⟨129600000000, "s"⟩, ⟨216000000000, "s"⟩,
         ⟨302400000000, "s"⟩, ⟨388800000000, "s"⟩] 1 4 none
      = [(1, 1), (2, 1), (3, 1), (4, 1)] :=
  ⟨by decide, by decide, by decide, by decide⟩

/-- **C6 counterexample.** A response with both `skipped=true` and
`not_seen=true` does contribute when the skip-behavior flag is set: the
`skipped` check runs first and returns `true`, whereas with the response
absent the condition is `false` — so a `not_seen` response is not always
ignored. -/
theorem C6_counterexample :
    eval_single_condition ⟨"c1", "g1", "==", "1", "1"⟩
        [⟨"q", .str "0", true, true⟩] ["q"] = true
    ∧ eval_single_condition ⟨"c1", "g1", "==", "1", "1"⟩ [] ["q"] = false :=
  ⟨by decide, by decide⟩

/-- Unfolding `evalLoop` at a skipped head response. -/
theorem evalLoop_cons_skipped {a : Response} (ha : a.skipped = true)
    (op : String) (st : Bool) (tgt : PyVal) (l : List Response) :
    evalLoop op st tgt (a :: l) = if st = true then true else evalLoop op st tgt l := by
  simp only [evalLoop]
  rw [if_pos ha]

/-- Unfolding `evalLoop` at a not-seen (and not skipped) head response. -/
theorem evalLoop_cons_not_seen {a : Response} (ha : a.skipped = false)
    (hn : a.not_seen = true) (op : String) (st : Bool) (tgt : PyVal) (l : List Response) :
    evalLoop op st tgt (a :: l) = evalLoop op st tgt l := by
  simp only [evalLoop]
  rw [if_neg (by simp [ha]), if_pos hn]

/-- Unfolding `evalLoop` at a head response that gets evaluated. -/
theorem evalLoop_cons_eval {a : Response} (ha : a.skipped = false)
    (hn : a.not_seen = false) (op : String) (st : Bool) (tgt : PyVal) (l : List Response) :
    evalLoop op st tgt (a :: l)
      = (if evaluate_condition_logic (str2float a.content) op
            (if op ≠ "between" ∧ isFloatVal (str2float a.content) = true then str2float tgt
             else tgt) = true
         then true
         else evalLoop op st
           (if op ≠ "between" ∧ isFloatVal (str2float a.content) = true then str2float tgt
            else tgt) l) := by
  simp only [evalLoop]
  rw [if_neg (by simp [ha]), if_neg (by simp [hn])]

/-- With the skip-as-true flag set, the response loop returns `true` as soon
as any response in the list is skipped. -/
theorem evalLoop_skipped_exists (op : String) (tgt : PyVal) (l : List Response)
    (h : ∃ r ∈ l, r.skipped = true) : evalLoop op true tgt l = true := by
  induction l generalizing tgt with
  | nil => simp at h
  | cons a l ih =>
    cases hsk : a.skipped with
    | true =>
      rw [evalLoop_cons_skipped hsk]
      simp
    | false =>
      have hex : ∃ r ∈ l, r.skipped = true := by
        rcases h with ⟨r, hr, hrs⟩
        rcases List.mem_cons.mp hr with rfl | hmem
        · rw [hsk] at hrs
          cases hrs
        · exact ⟨r, hmem, hrs⟩
      cases hns : a.not_seen with
      | true =>
        rw [evalLoop_cons_not_seen hsk hns]
        exact ih _ hex
      | false =>
        rw [evalLoop_cons_eval hsk hns]
        by_cases hecl : evaluate_condition_logic (str2float a.content) op
            (if op ≠ "between" ∧ isFloatVal (str2float a.content) = true then str2float tgt
             else tgt) = true
        · rw [if_pos hecl]
        · rw [if_neg hecl]
          exact ih _ hex

/-- With the skip-as-true flag unset, skipped responses are passed over, so
a list of only skipped responses evaluates to `false`. -/
theorem evalLoop_all_skipped (op : String) (tgt : PyVal) (l : List Response)
    (h : ∀ r ∈ l, r.skipped = true) : evalLoop op false tgt l = false := by
  induction l generalizing tgt with
  | nil => rfl
  | cons a l ih =>
    rw [evalLoop_cons_skipped (h a (List.mem_cons_self a l)), if_neg (by simp)]
    exact ih _ (fun r hr => h r (List.mem_cons_of_mem _ hr))

/-- Responses with `not_seen = true` and `skipped = false` are passed over
by the response loop without any effect (the conversion state `target` is
untouched). -/
theorem evalLoop_drop_not_seen (op : String) (st : Bool) (l : List Response) (tgt : PyVal) :
    evalLoop op st tgt (l.filter (fun r => !(r.not_seen && !r.skipped)))
      = evalLoop op st tgt l := by
  induction l generalizing tgt with
  | nil => rfl
  | cons a l ih =>
    cases hsk : a.skipped with
    | true =>
      rw [List.filter_cons, if_pos (by simp [hsk]), evalLoop_cons_skipped hsk,
        evalLoop_cons_skipped hsk, ih tgt]
    | false =>
      cases hns : a.not_seen with
      | true =>
        rw [List.filter_cons, if_neg (by simp [hsk, hns]), evalLoop_cons_not_seen hsk hns]
        exact ih tgt
      | false =>
        rw [List.filter_cons, if_pos (by simp [hns]), evalLoop_cons_eval hsk hns,
          evalLoop_cons_eval hsk hns]
        exact if_congr Iff.rfl rfl (ih _)

/-- **C6 amended.** A skipped response makes `eval_single_condition` return
`true` whenever the skip-behavior flag is set (the `skipped` check runs
before the `not_seen` check); with the flag unset skipped responses are
passed over, so a condition whose relevant responses are all skipped is
`false` for non-`empty` operators; and a response with `not_seen = true`
**and `skipped = false`** never contributes (for non-`empty` operators the
result is unchanged when such responses are removed; for the `empty`
operator their mere presence defeats the vacuous-emptiness check, and a
response with both flags set follows the `skipped` rule). -/
theorem C6_skip_semantics :
    (∀ (cond : Condition) (rs : List Response) (qs : List String),
      cond.skip_behavior = "1" →
      (∃ r ∈ rs.filter (fun r => decide (r.question_name ∈ qs)), r.skipped = true) →
      eval_single_condition cond rs qs = true)
    ∧ (∀ (cond : Condition) (rs : List Response) (qs : List String),
      cond.skip_behavior ≠ "1" → cond.operator ≠ "empty" →
      (∀ r ∈ rs.filter (fun r => decide (r.question_name ∈ qs)), r.skipped = true) →
      eval_single_condition cond rs qs = false)
    ∧ (∀ (cond : Condition) (rs : List Response) (qs : List String),
      cond.operator ≠ "empty" →
      eval_single_condition cond rs qs
        = eval_single_condition cond (rs.filter (fun r => !(r.not_seen && !r.skipped))) qs) := by
  refine ⟨?_, ?_, ?_⟩
  · intro cond rs qs hsb hex
    rw [eval_single_condition]
    split
    · rfl
    · rw [hsb]
      exact evalLoop_skipped_exists _ _ _ hex
  · intro cond rs qs hsb hop hall
    rw [eval_single_condition, if_neg (fun hc => hop hc.1)]
    have hsb2 : decide (cond.skip_behavior = "1") = false := by simp [hsb]
    rw [hsb2]
    exact evalLoop_all_skipped _ _ _ hall
  · intro cond rs qs hop
    simp only [eval_single_condition]
    rw [if_neg (fun hc => hop hc.1), if_neg (fun hc => hop hc.1)]
    rw [filter_swap]
    exact (evalLoop_drop_not_seen _ _ _ _).symm

/-- Witness for C6 at concrete inputs. -/
theorem C6_witness :
    eval_single_condition ⟨"c", "g", "==", "1", "1"⟩
        [⟨"q", .str "9", true, false⟩] ["q"] = true
    ∧ eval_single_condition ⟨"c", "g", "==", "1", "0"⟩
        [⟨"q", .str "9", true, false⟩] ["q"] = false
    ∧ eval_single_condition ⟨"c", "g", "==", "1", "0"⟩
        [⟨"q", .str "1", false, true⟩, ⟨"q", .str "1", false, false⟩] ["q"]
      = eval_single_condition ⟨"c", "g", "==", "1", "0"⟩
          (([⟨"q", .str "1", false, true⟩, ⟨"q", .str "1", false, false⟩] :
              List Response).filter (fun r => !(r.not_seen && !r.skipped))) ["q"] :=
  ⟨C6_skip_semantics.1 _ _ _ rfl (by decide),
   C6_skip_semantics.2.1 _ _ _ (by decide) (by decide) (by decide),
   C6_skip_semantics.2.2 _ _ _ (by decide)⟩

theorem str2float_idem (x : PyVal) : str2float (str2float x) = str2float x := by
  cases x with
  | str s =>
    simp only [str2float]
    cases h : parseFloat s with
    | none => simp only [str2float, h]
    | some d => rfl
  | num d => rfl
  | na => rfl

theorem respMatches_skipped {r : Response} (hsk : r.skipped = true)
    (op : String) (st : Bool) (tgt : PyVal) : respMatches op st tgt r = st := by
  rw [respMatches, if_pos hsk]

theorem respMatches_not_seen {r : Response} (hsk : r.skipped = false)
    (hns : r.not_seen = true) (op : String) (st : Bool) (tgt : PyVal) :
    respMatches op st tgt r = false := by
  rw [respMatches, if_neg (by simp [hsk]), if_pos hns]

theorem respMatches_eval {r : Response} (hsk : r.skipped = false)
    (hns : r.not_seen = false) (op : String) (st : Bool) (tgt : PyVal) :
    respMatches op st tgt r = evaluate_condition_logic (str2float r.content) op tgt := by
  rw [respMatches, if_neg (by simp [hsk]), if_neg (by simp [hns])]

/-- When every response content in the list parses as a float and the
operator is not `between`, the loop behaves as an `any` against the
converted target. -/
theorem evalLoop_eq_any_allFloat (op : String) (st : Bool) (l : List Response) (tgt : PyVal)
    (hop : op ≠ "between")
    (h : ∀ r ∈ l, isFloatVal (str2float r.content) = true) :
    evalLoop op st tgt l = l.any (respMatches op st (str2float tgt)) := by
  induction l generalizing tgt with
  | nil => rfl
  | cons a l ih =>
    have htail : ∀ r ∈ l, isFloatVal (str2float r.content) = true :=
      fun r hr => h r (List.mem_cons_of_mem _ hr)
    rw [List.any_cons]
    cases hsk : a.skipped with
    | true =>
      rw [evalLoop_cons_skipped hsk, respMatches_skipped hsk]
      cases st with
      | true => simp
      | false => simp [ih tgt htail]
    | false =>
      cases hns : a.not_seen with
      | true =>
        rw [evalLoop_cons_not_seen hsk hns, respMatches_not_seen hsk hns, ih tgt htail]
        simp
      | false =>
        have hf : isFloatVal (str2float a.content) = true := h a (List.mem_cons_self a l)
        have htg : (if op ≠ "between" ∧ isFloatVal (str2float a.content) = true
            then str2float tgt else tgt) = str2float tgt := if_pos ⟨hop, hf⟩
        rw [evalLoop_cons_eval hsk hns, htg, respMatches_eval hsk hns]
        cases hecl : evaluate_condition_logic (str2float a.content) op (str2float tgt) with
        | true => simp
        | false =>
          rw [ih (str2float tgt) htail]
          simp [str2float_idem]

/-- When no response content in the list parses as a float, the loop behaves
as an `any` against the raw target. -/
theorem evalLoop_eq_any_noFloat (op : String) (st : Bool) (l : List Response) (tgt : PyVal)
    (h : ∀ r ∈ l, isFloatVal (str2float r.content) = false) :
    evalLoop op st tgt l = l.any (respMatches op st tgt) := by
  induction l generalizing tgt with
  | nil => rfl
  | cons a l ih =>
    have htail : ∀ r ∈ l, isFloatVal (str2float r.content) = false :=
      fun r hr => h r (List.mem_cons_of_mem _ hr)
    rw [List.any_cons]
    cases hsk : a.skipped with
    | true =>
      rw [evalLoop_cons_skipped hsk, respMatches_skipped hsk]
      cases st with
      | true => simp
      | false => simp [ih tgt htail]
    | false =>
      cases hns : a.not_seen with
      | true =>
        rw [evalLoop_cons_not_seen hsk hns, respMatches_not_seen hsk hns, ih tgt htail]
        simp
      | false =>
        have hf : isFloatVal (str2float a.content) = false := h a (List.mem_cons_self a l)
        have htg : (if op ≠ "between" ∧ isFloatVal (str2float a.content) = true
            then str2float tgt else tgt) = tgt := if_neg (fun hc => by simp [hf] at hc)
        rw [evalLoop_cons_eval hsk hns, htg, respMatches_eval hsk hns]
        cases hecl : evaluate_condition_logic (str2float a.content) op tgt with
        | true => simp
        | false => simp [ih tgt htail]

/-- For the `between` operator the target is never converted, so the loop is
an `any` against the raw target. -/
theorem evalLoop_eq_any_between (st : Bool) (l : List Response) (tgt : PyVal) :
    evalLoop "between" st tgt l = l.any (respMatches "between" st tgt) := by
  induction l generalizing tgt with
  | nil => rfl
  | cons a l ih =>
    rw [List.any_cons]
    cases hsk : a.skipped with
    | true =>
      rw [evalLoop_cons_skipped hsk, respMatches_skipped hsk]
      cases st with
      | true => simp
      | false => simp [ih tgt]
    | false =>
      cases hns : a.not_seen with
      | true =>
        rw [evalLoop_cons_not_seen hsk hns, respMatches_not_seen hsk hns, ih tgt]
        simp
      | false =>
        have htg : (if ("between" : String) ≠ "between"
              ∧ isFloatVal (str2float a.content) = true
            then str2float tgt else tgt) = tgt := if_neg (fun hc => hc.1 rfl)
        rw [evalLoop_cons_eval hsk hns, htg, respMatches_eval hsk hns]
        cases hecl : evaluate_condition_logic (str2float a.content) "between" tgt with
        | true => simp
        | false => simp [ih tgt]

/-- Characterization of `eval_single_condition` when the float-parse status
of the filtered responses is uniform (all parse, none parse, or the operator
is `between`): the vacuous `empty` check or an `any` over the filtered
responses against the effective target. -/
theorem eval_single_condition_char (cond : Condition) (rs : List Response) (qs : List String)
    (hu : (∀ r ∈ rs.filter (fun r => decide (r.question_name ∈ qs)),
            isFloatVal (str2float r.content) = true)
        ∨ (∀ r ∈ rs.filter (fun r => decide (r.question_name ∈ qs)),
            isFloatVal (str2float r.content) = false)
        ∨ cond.operator = "between") :
    eval_single_condition cond rs qs
      = (decide (cond.operator = "empty"
            ∧ rs.filter (fun r => decide (r.question_name ∈ qs)) = [])
        || (rs.filter (fun r => decide (r.question_name ∈ qs))).any
            (respMatches cond.operator (decide (cond.skip_behavior = "1"))
              (effTarget cond (rs.filter (fun r => decide (r.question_name ∈ qs)))))) := by
  simp only [eval_single_condition]
  by_cases hemp : cond.operator = "empty"
      ∧ rs.filter (fun r => decide (r.question_name ∈ qs)) = []
  · rw [if_pos hemp, decide_eq_true hemp, Bool.true_or]
  · rw [if_neg hemp, decide_eq_false hemp, Bool.false_or]
    by_cases hnil : rs.filter (fun r => decide (r.question_name ∈ qs)) = []
    · rw [hnil]
      rfl
    · rcases hu with hfl | hnf | hb
      · by_cases hbop : cond.operator = "between"
        · have heff : effTarget cond (rs.filter (fun r => decide (r.question_name ∈ qs)))
              = .str cond.value := by
            rw [effTarget, if_neg (fun hc => hc.1 hbop)]
          rw [heff, hbop]
          exact evalLoop_eq_any_between _ _ _
        · have hany : (rs.filter (fun r => decide (r.question_name ∈ qs))).any
              (fun r => isFloatVal (str2float r.content)) = true := by
            rcases List.exists_mem_of_ne_nil _ hnil with ⟨a, ha⟩
            exact List.any_eq_true.mpr ⟨a, ha, hfl a ha⟩
          have heff : effTarget cond (rs.filter (fun r => decide (r.question_name ∈ qs)))
              = str2float (.str cond.value) := by
            rw [effTarget, if_pos ⟨hbop, hany⟩]
          rw [heff]
          exact evalLoop_eq_any_allFloat _ _ _ _ hbop hfl
      · have hany : (rs.filter (fun r => decide (r.question_name ∈ qs))).any
            (fun r => isFloatVal (str2float r.content)) = false := by
          cases hres : (rs.filter (fun r => decide (r.question_name ∈ qs))).any
              (fun r => isFloatVal (str2float r.content)) with
          | false => rfl
          | true =>
            exfalso
            rcases List.any_eq_true.mp hres with ⟨a, ha, hfa⟩
            rw [hnf a ha] at hfa
            cases hfa
        have heff : effTarget cond (rs.filter (fun r => decide (r.question_name ∈ qs)))
            = .str cond.value := by
          rw [effTarget, if_neg (fun hc => by rw [hany] at hc; cases hc.2)]
        rw [heff]
        exact evalLoop_eq_any_noFloat _ _ _ _ hnf
      · have heff : effTarget cond (rs.filter (fun r => decide (r.question_name ∈ qs)))
            = .str cond.value := by
          rw [effTarget, if_neg (fun hc => hc.1 hb)]
        rw [heff, hb]
        exact evalLoop_eq_any_between _ _ _

/-- **C1 counterexample.** `eval_single_condition` is not invariant under
permutation of the responses: with operator `<` and comparison value
`"1.0"`, the responses `"0.5abc"` (unparseable) and `"2"` (parseable) give
`true` in one order and `false` in the other (the numeric conversion of the
comparison value performed for `"2"` persists, so `"0.5abc"` is then
compared against a float and the string comparison that would match never
happens).  The third conjunct records that the two response lists are
permutations of each other. -/
theorem C1_counterexample :
    eval_single_condition ⟨"c", "g", "<", "1.0", "0"⟩
        [⟨"q", .str "0.5abc", false, false⟩, ⟨"q", .str "2", false, false⟩] ["q"] = true
    ∧ eval_single_condition ⟨"c", "g", "<", "1.0", "0"⟩
        [⟨"q", .str "2", false, false⟩, ⟨"q", .str "0.5abc", false, false⟩] ["q"] = false
    ∧ List.Perm
        [(⟨"q", .str "0.5abc", false, false⟩ : Response), ⟨"q", .str "2", false, false⟩]
        [⟨"q", .str "2", false, false⟩, ⟨"q", .str "0.5abc", false, false⟩] :=
  ⟨by decide, by decide, List.Perm.swap _ _ []⟩

/-- **C1 amended.** When the float-parse status of the filtered responses is
uniform — all contents parse as floats, none do, or the operator is
`between` — `eval_single_condition` is invariant under permutation of the
responses, and it returns `true` iff the `empty` operator meets an empty
filtered set or at least one response (after the skipped/not-seen rules)
satisfies the operator against the effective comparison value (the parsed
target when parsing applies, the raw one otherwise) — an implicit OR across
the matching responses.  Without the uniformity proviso the result is
order-dependent, as the counterexample shows. -/
theorem C1_or_semantics :
    ∀ (cond : Condition) (rs rs2 : List Response) (qs : List String),
      rs.Perm rs2 →
      ((∀ r ∈ rs.filter (fun r => decide (r.question_name ∈ qs)),
          isFloatVal (str2float r.content) = true)
        ∨ (∀ r ∈ rs.filter (fun r => decide (r.question_name ∈ qs)),
          isFloatVal (str2float r.content) = false)
        ∨ cond.operator = "between") →
      eval_single_condition cond rs qs = eval_single_condition cond rs2 qs
      ∧ (eval_single_condition cond rs qs = true ↔
          ((cond.operator = "empty"
              ∧ rs.filter (fun r => decide (r.question_name ∈ qs)) = [])
          ∨ ∃ r ∈ rs.filter (fun r => decide (r.question_name ∈ qs)),
              respMatches cond.operator (decide (cond.skip_behavior = "1"))
                (effTarget cond (rs.filter (fun r => decide (r.question_name ∈ qs)))) r
                = true)) := by
  intro cond rs rs2 qs hperm hu
  have hpf : (rs.filter (fun r => decide (r.question_name ∈ qs))).Perm
      (rs2.filter (fun r => decide (r.question_name ∈ qs))) := hperm.filter _
  have hu2 : (∀ r ∈ rs2.filter (fun r => decide (r.question_name ∈ qs)),
        isFloatVal (str2float r.content) = true)
      ∨ (∀ r ∈ rs2.filter (fun r => decide (r.question_name ∈ qs)),
        isFloatVal (str2float r.content) = false)
      ∨ cond.operator = "between" := by
    rcases hu with h | h | h
    · exact Or.inl (fun r hr => h r (hpf.mem_iff.mpr hr))
    · exact Or.inr (Or.inl (fun r hr => h r (hpf.mem_iff.mpr hr)))
    · exact Or.inr (Or.inr h)
  have h1 := eval_single_condition_char cond rs qs hu
  have h2 := eval_single_condition_char cond rs2 qs hu2
  have hnil : (rs.filter (fun r => decide (r.question_name ∈ qs)) = [])
      ↔ (rs2.filter (fun r => decide (r.question_name ∈ qs)) = []) := by
    constructor
    · intro hh
      have hcopy := hpf
      rw [hh] at hcopy
      exact hcopy.symm.eq_nil
    · intro hh
      have hcopy := hpf
      rw [hh] at hcopy
      exact hcopy.eq_nil
  have hanyfl : (rs.filter (fun r => decide (r.question_name ∈ qs))).any
        (fun r => isFloatVal (str2float r.content))
      = (rs2.filter (fun r => decide (r.question_name ∈ qs))).any
        (fun r => isFloatVal (str2float r.content)) := perm_any hpf _
  have heff : effTarget cond (rs.filter (fun r => decide (r.question_name ∈ qs)))
      = effTarget cond (rs2.filter (fun r => decide (r.question_name ∈ qs))) := by
    rw [effTarget, effTarget, hanyfl]
  constructor
  · rw [h1, h2, heff]
    congr 1
    · exact decide_eq_decide.mpr (and_congr_right (fun _ => hnil))
    · exact perm_any hpf _
  · rw [h1]
    simp only [Bool.or_eq_true, decide_eq_true_eq, List.any_eq_true]

/-- Witness for C1 at a concrete input (all contents parse as floats; the
permutation is the identity). -/
theorem C1_witness :
    eval_single_condition ⟨"c", "g", "==", "1", "0"⟩
        [⟨"q", .str "2", false, false⟩] ["q"]
      = eval_single_condition ⟨"c", "g", "==", "1", "0"⟩
        [⟨"q", .str "2", false, false⟩] ["q"]
    ∧ (eval_single_condition ⟨"c", "g", "==", "1", "0"⟩
          [⟨"q", .str "2", false, false⟩] ["q"] = true ↔
        ((("==" : String) = "empty"
            ∧ ([(⟨"q", .str "2", false, false⟩ : Response)]).filter
                (fun r => decide (r.question_name ∈ (["q"] : List String))) = [])
        ∨ ∃ r ∈ ([(⟨"q", .str "2", false, false⟩ : Response)]).filter
              (fun r => decide (r.question_name ∈ (["q"] : List String))),
            respMatches "==" (decide (("0" : String) = "1"))
              (effTarget ⟨"c", "g", "==", "1", "0"⟩
                (([(⟨"q", .str "2", false, false⟩ : Response)]).filter
                  (fun r => decide (r.question_name ∈ (["q"] : List String))))) r
              = true)) :=
  C1_or_semantics ⟨"c", "g", "==", "1", "0"⟩ _ _ ["q"] (List.Perm.refl _)
    (Or.inl (by decide))

end PsydeKick
